import Mathlib

/-!
Verification of the fern-express SDK-generation server (src/server.js, with the
packaging variant of src/unnamed/part_001) against its natural-language design
specification.  The JavaScript request handlers are shallowly embedded as pure
Lean functions: external effects (the uploaded file, npm availability, the
`fern` subprocess outcomes, the state of the `generated` output directory) are
passed in explicitly as environment records, and each handler returns a record
describing the HTTP response it produced together with whether the job's
workspace directory was created and whether it was removed again.
-/

namespace FernExpress

/-- The caller-supplied `config` payload, `JSON.parse(req.body.config)`.
Fields that the server reads are modelled; each is `none` when the caller's
JSON omits it (JavaScript `undefined`). -/
structure RequestConfig where
  includeExamples : Option Bool := none
  includeTests : Option Bool := none
  fernCliVersion : Option String := none
  tempDir : Option String := none
deriving Repr, DecidableEq

/-- The module-level service configuration of src/server.js lines 17-22,
with the environment variables unset so every default applies. -/
structure ServiceConfig where
  fernCliVersion : String
  maxFileSize : Nat
  tempDir : String
deriving Repr, DecidableEq

/-- src/server.js lines 17-22: `fernCliVersion: process.env.FERN_CLI_VERSION || '0.61.18'`,
`maxFileSize: 52428800`, `tempDir: process.env.TEMP_DIR || './tmp'`. -/
def config : ServiceConfig :=
  { fernCliVersion := "0.61.18", maxFileSize := 52428800, tempDir := "./tmp" }

/-- JavaScript `v || d` for a value that is a boolean or `undefined`:
a truthy value (`true`) is kept, `false` and `undefined` fall back to `d`. -/
def jsOrBool (v : Option Bool) (d : Bool) : Bool :=
  match v with
  | some b => if b then b else d
  | none => d

/-- Template-literal interpolation of a boolean, `${b}`. -/
def jsBool (b : Bool) : String := if b then "true" else "false"

/-- Template-literal interpolation of a string that may be `undefined`:
JavaScript renders `undefined` as the text "undefined". -/
def jsUndefinedOr (v : Option String) : String :=
  match v with
  | some s => s
  | none => "undefined"

/-- `path.join(a, b)` restricted to the shapes the server uses
(separator insertion; Node's `.`-segment normalisation is not needed for
the properties proved here and is elided). -/
def pathJoin (a b : String) : String := a ++ "/" ++ b

/-- src/server.js line 265: the /check workspace path
`path.join(config.tempDir, 'fern-check-' + Date.now())`, a pure function of
the clock millisecond, with `config` the module-level service config. -/
def checkWorkDir (now : Nat) : String :=
  pathJoin config.tempDir ("fern-check-" ++ toString now)

/-- src/server.js line 349: the /generate workspace path
`path.join(config.tempDir, 'fern-' + Date.now())`; here `config` is the
*request's* parsed config object (the local `const config` of line 346
shadows the module-level one), so the temp root is caller-controlled. -/
def genWorkDir (tempDir : String) (now : Nat) : String :=
  pathJoin tempDir ("fern-" ++ toString now)

/-- src/server.js line 90 inside `setupFernProject`:
`execSync('npm install -g fern-api@' + config.fernCliVersion)`, where `config`
is the local `const config = options.config || {}` of line 64 — the caller's
parsed request config — not the module-level service config of lines 17-22. -/
def installCommand (requestConfig : RequestConfig) : String :=
  "npm install -g fern-api@" ++ jsUndefinedOr requestConfig.fernCliVersion

/-- src/server.js lines 146-230: `generateFernGeneratorsConfig(language,
packageName, config)` — the generators.yml text, selected by a switch on
`language` whose default branch duplicates the typescript branch, with the
truthy-fallback toggles `config.includeExamples || true` and
`config.includeTests || false` interpolated. -/
def generateFernGeneratorsConfig (language packageName : String)
    (config : RequestConfig) : String :=
  match language with
  | "typescript" =>
      "\ntypescript:\n  mode: client\n  output:\n    location: local\n    path: ./generated/typescript\n  name: "
        ++ packageName
        ++ "\n  includeExamples: " ++ jsBool (jsOrBool config.includeExamples true)
        ++ "\n  includeTests: " ++ jsBool (jsOrBool config.includeTests false)
  | "python" =>
      "\npython:\n  mode: client\n  output:\n    location: local\n    path: ./generated/python\n  name: "
        ++ packageName
        ++ "\n  include_tests: " ++ jsBool (jsOrBool config.includeTests false)
        ++ "\n  include_examples: " ++ jsBool (jsOrBool config.includeExamples true)
  | "java" =>
      "\njava:\n  mode: client\n  output:\n    location: local\n    path: ./generated/java\n  name: "
        ++ packageName
        ++ "\n  includes:\n    examples: " ++ jsBool (jsOrBool config.includeExamples true)
        ++ "\n    tests: " ++ jsBool (jsOrBool config.includeTests false)
  | "go" =>
      "\ngo:\n  mode: client\n  output:\n    location: local\n    path: ./generated/go\n  module-path: github.com/"
        ++ packageName
        ++ "/sdk\n  include-examples: " ++ jsBool (jsOrBool config.includeExamples true)
        ++ "\n  include-tests: " ++ jsBool (jsOrBool config.includeTests false)
  | "ruby" =>
      "\nruby:\n  mode: client\n  output:\n    location: local\n    path: ./generated/ruby\n  name: "
        ++ packageName
        ++ "\n  include-examples: " ++ jsBool (jsOrBool config.includeExamples true)
        ++ "\n  include-tests: " ++ jsBool (jsOrBool config.includeTests false)
  | "csharp" =>
      "\ncsharp:\n  mode: client\n  output:\n    location: local\n    path: ./generated/csharp\n  name: "
        ++ packageName
        ++ "\n  include-examples: " ++ jsBool (jsOrBool config.includeExamples true)
        ++ "\n  include-tests: " ++ jsBool (jsOrBool config.includeTests false)
  | _ =>
      "\ntypescript:\n  mode: client\n  output:\n    location: local\n    path: ./generated/typescript\n  name: "
        ++ packageName
        ++ "\n  includeExamples: " ++ jsBool (jsOrBool config.includeExamples true)
        ++ "\n  includeTests: " ++ jsBool (jsOrBool config.includeTests false)

/-- The language identifiers given their own case by the switch in
`generateFernGeneratorsConfig` (src/server.js lines 149-216). -/
def supportedLanguages : List String :=
  ["typescript", "python", "java", "go", "ruby", "csharp"]

/-- Spec-side (section 4.2.4 / section 8 of the design): the variant a
language identifier should select — itself when supported, the documented
typescript fallback otherwise. -/
def specSelectedVariant (language : String) : String :=
  if language ∈ supportedLanguages then language else "typescript"

/-- State of `<workDir>/generated` after the tool invocation. -/
inductive GeneratedDirState
  | missing
  | empty
  | nonempty
deriving Repr, DecidableEq

/-- src/server.js lines 430-458, `createZipArchive`: when
`fs.existsSync(generatedDir)` fails the else-branch calls `logger.warn`, but
the logger object (lines 24-31) defines only `info` and `error`, so the
promise executor throws a TypeError and the promise rejects; in every other
case (including an existing but empty directory) the archive finalises and
the promise resolves. -/
def createZipArchive (generatedDir : GeneratedDirState) : Except String Unit :=
  match generatedDir with
  | .missing => .error "logger.warn is not a function"
  | .empty => .ok ()
  | .nonempty => .ok ()

namespace Part001

/-- src/unnamed/part_001 lines 563-607, `createZipArchive`: rejects with
'Generated directory not found' when the directory is absent, with
'Generated directory is empty' when `fs.readdirSync` returns no entries
(its zero-byte close guard is subsumed by that check), and resolves
otherwise. -/
def createZipArchive (generatedDir : GeneratedDirState) : Except String Unit :=
  match generatedDir with
  | .missing => .error "Generated directory not found"
  | .empty => .error "Generated directory is empty"
  | .nonempty => .ok ()

end Part001

/-- One inbound job request, as the handlers see it after parsing:
whether a spec file was uploaded (`req.files.spec`), the `language` and
`packageName` body fields, and the parsed `config` payload (`none` when
`req.body.config` is absent). -/
structure JobRequest where
  hasSpecFile : Bool
  language : Option String
  packageName : Option String
  requestConfig : Option RequestConfig
deriving Repr, DecidableEq

/-- Outcome of one `execSync` of the external tool: exit code and captured
standard output/error. -/
structure ToolOutcome where
  exitCode : Nat
  stdout : String
  stderr : String
deriving Repr, DecidableEq

/-- Environment behaviour for one /generate job. -/
structure GenEnv where
  npmAvailable : Bool
  installSucceeds : Bool
  generateOutcome : ToolOutcome
  generatedDir : GeneratedDirState
deriving Repr, DecidableEq

/-- Environment behaviour for one /check job. -/
structure CheckEnv where
  npmAvailable : Bool
  installSucceeds : Bool
  checkOutcome : ToolOutcome
deriving Repr, DecidableEq

/-- The observable outcome of one /generate request: HTTP status, whether a
zip archive was streamed, whether the job's workspace directory was created,
and whether it had been removed again by the time the response (and its
`finish` handler) completed. -/
structure JobResult where
  status : Nat
  archiveSent : Bool
  workspaceCreated : Bool
  workspaceReleased : Bool
deriving Repr, DecidableEq

/-- src/server.js lines 331-414, the POST /generate handler.
Control flow: the `language`/`packageName` guards return 400 before any
directory exists; `path.join(config.tempDir, ...)` with the *request*
config (line 346 shadows the module config) throws when the caller supplied
no `tempDir`, reaching the outer catch (500) before the directory is made;
after `fs.ensureDirSync(workDir)` every error *thrown* inside the inner try
(missing spec file, npm probe failure, CLI install failure, archive
rejection) runs the inner catch — `await cleanupWorkDir(workDir); throw` —
and surfaces as 500; but a non-zero `fern generate` exit is handled by
`return res.status(500).json(...)` inside the inner try, which bypasses the
inner catch, so no cleanup runs on that path; on success the zip is streamed
and `res.on('finish')` removes the workspace. -/
def generateHandler (req : JobRequest) (env : GenEnv) : JobResult :=
  if req.language.isNone then
    { status := 400, archiveSent := false, workspaceCreated := false, workspaceReleased := false }
  else if req.packageName.isNone then
    { status := 400, archiveSent := false, workspaceCreated := false, workspaceReleased := false }
  else if ((req.requestConfig.getD {}).tempDir).isNone then
    { status := 500, archiveSent := false, workspaceCreated := false, workspaceReleased := false }
  else if req.hasSpecFile = false then
    { status := 500, archiveSent := false, workspaceCreated := true, workspaceReleased := true }
  else if env.npmAvailable = false then
    { status := 500, archiveSent := false, workspaceCreated := true, workspaceReleased := true }
  else if env.installSucceeds = false then
    { status := 500, archiveSent := false, workspaceCreated := true, workspaceReleased := true }
  else if env.generateOutcome.exitCode ≠ 0 then
    { status := 500, archiveSent := false, workspaceCreated := true, workspaceReleased := false }
  else
    match createZipArchive env.generatedDir with
    | .error _ =>
        { status := 500, archiveSent := false, workspaceCreated := true, workspaceReleased := true }
    | .ok _ =>
        { status := 200, archiveSent := true, workspaceCreated := true, workspaceReleased := true }

end FernExpress

namespace FernExpress

/-- A character JavaScript's `String.prototype.trim` removes (the white-space
forms that occur in subprocess output). -/
def isJsWhitespace (c : Char) : Bool :=
  c = ' ' || c = '\t' || c = '\n' || c = '\r'

/-- JavaScript `s.trim()`. -/
def jsTrim (s : String) : String :=
  String.mk (((s.data.dropWhile isJsWhitespace).reverse.dropWhile isJsWhitespace).reverse)

/-- JavaScript `s.split('\n')` on the character list: the (possibly empty)
segments between newline characters, in order. -/
def splitOnNewline (cs : List Char) : List (List Char) :=
  match cs with
  | [] => [[]]
  | c :: rest =>
    if c = '\n' then
      [] :: splitOnNewline rest
    else
      match splitOnNewline rest with
      | [] => [[c]]
      | h :: t => (c :: h) :: t

/-- JavaScript `s.split('\n')`. -/
def jsSplitLines (s : String) : List String :=
  (splitOnNewline s.data).map (fun cs => String.mk cs)

/-- src/server.js lines 297-308, the diagnostics extraction in the /check
catch block: `const errorOutput = checkError.stderr || checkError.stdout;
if (errorOutput) { errorOutput.split('\n').filter(trimmed nonempty).map(trim) }`
with the list staying `[]` otherwise. -/
def parseValidationErrors (stderr stdout : String) : List String :=
  let errorOutput := if stderr = "" then stdout else stderr
  if errorOutput = "" then []
  else
    ((jsSplitLines errorOutput).filter (fun line => 0 < (jsTrim line).length)).map
      (fun line => jsTrim line)

/-- The observable outcome of one /check request: HTTP status, the fields of
the JSON payload that were set (absent fields are `none`), and the workspace
bookkeeping. -/
structure CheckResult where
  status : Nat
  valid : Option Bool := none
  message : Option String := none
  errorMessage : Option String := none
  errors : Option (List String) := none
  fernDir : Option String := none
  workspaceCreated : Bool
  workspaceReleased : Bool
deriving Repr, DecidableEq

/-- src/server.js lines 246-328, the POST /check handler.
The `language`/`packageName` guards return 400 first; `fs.ensureDirSync`
then creates the workspace *before* `setupFernProject` runs, so the missing
spec file (a plain `Error`, not the `ValidationError` class) and the npm or
install failures all propagate to the catch, which maps anything that is not
a `ValidationError` to 500 'Internal server error'; a zero-exit `fern check`
answers 200 with `valid:true`, the fixed message, and the `fernDir` path
returned by `setupFernProject` (`path.join(workDir, 'fern')`); a non-zero
exit throws `ValidationError`, answered as 400 with the parsed diagnostics.
No path of this handler removes the workspace directory. -/
def checkHandler (req : JobRequest) (env : CheckEnv) (now : Nat) : CheckResult :=
  if req.language.isNone then
    { status := 400, errorMessage := some "Language parameter is required",
      workspaceCreated := false, workspaceReleased := false }
  else if req.packageName.isNone then
    { status := 400, errorMessage := some "Package name is required",
      workspaceCreated := false, workspaceReleased := false }
  else if req.hasSpecFile = false then
    { status := 500, errorMessage := some "Internal server error",
      workspaceCreated := true, workspaceReleased := false }
  else if env.npmAvailable = false then
    { status := 500, errorMessage := some "Internal server error",
      workspaceCreated := true, workspaceReleased := false }
  else if env.installSucceeds = false then
    { status := 500, errorMessage := some "Internal server error",
      workspaceCreated := true, workspaceReleased := false }
  else if env.checkOutcome.exitCode = 0 then
    { status := 200, valid := some true, message := some "OpenAPI specification is valid",
      fernDir := some (pathJoin (checkWorkDir now) "fern"),
      workspaceCreated := true, workspaceReleased := false }
  else
    { status := 400, errorMessage := some "OpenAPI specification has validation errors",
      errors := some (parseValidationErrors env.checkOutcome.stderr env.checkOutcome.stdout),
      workspaceCreated := true, workspaceReleased := false }

/-- `(s ++ t).data = s.data ++ t.data`, stated for rewriting. -/
theorem data_append_eq (s t : String) : (s ++ t).data = s.data ++ t.data := by
  cases s; cases t; rfl

/-- A prefix of the left operand of a string append is a prefix of the whole. -/
theorem prefix_of_append (pre s t : String) (h : pre.data <+: s.data) :
    pre.data <+: (s ++ t).data := by
  rw [data_append_eq]
  exact h.trans (List.prefix_append _ _)

/-- C1: a /generate job whose `fern generate` exits non-zero (here with a
valid request and a caller-supplied temp root, npm present, CLI install
succeeding) answers 500 but leaves its workspace directory on disk: the
`return res.status(500)` inside the genError catch bypasses both the inner
cleanup catch and the `res.on('finish')` cleanup, contradicting the
unconditional-release policy the claim states. -/
theorem c1_generate_tool_failure_leaks_workspace :
    generateHandler
      { hasSpecFile := true, language := some "typescript",
        packageName := some "acme-client",
        requestConfig := some { tempDir := some "./tmp" } }
      { npmAvailable := true, installSucceeds := true,
        generateOutcome := { exitCode := 1, stdout := "", stderr := "error: generation failed" },
        generatedDir := .missing } =
      { status := 500, archiveSent := false, workspaceCreated := true,
        workspaceReleased := false } := by
  rfl

/-- C6: the workspace name is a pure function of the clock millisecond —
two /generate allocations in the same millisecond both evaluate to the very
same path `./tmp/fern-1700000000000` (and `fs.ensureDirSync` silently
accepts the second), while only allocations in different milliseconds, or
of different job kinds, receive distinct paths. -/
theorem c6_same_millisecond_collision :
    genWorkDir "./tmp" 1700000000000 = "./tmp/fern-1700000000000" ∧
    checkWorkDir 1700000000000 = "./tmp/fern-check-1700000000000" ∧
    genWorkDir "./tmp" 1700000000001 ≠ genWorkDir "./tmp" 1700000000000 := by
  refine ⟨by rfl, by rfl, by decide⟩

/-- C4: the generators configuration artifact selects the requested
language's variant — for each supported identifier the artifact opens with
that identifier's YAML key — and for every unsupported identifier the
switch's default branch yields exactly the typescript variant's artifact,
so the job proceeds instead of failing. -/
theorem c4_variant_selection (language packageName : String) (cfg : RequestConfig) :
    (language ∈ supportedLanguages →
      ("\n" ++ language ++ ":").data <+:
        (generateFernGeneratorsConfig language packageName cfg).data) ∧
    (language ∉ supportedLanguages →
      generateFernGeneratorsConfig language packageName cfg =
        generateFernGeneratorsConfig "typescript" packageName cfg ∧
      specSelectedVariant language = "typescript") := by
  constructor
  · intro hmem
    simp only [supportedLanguages, List.mem_cons, List.not_mem_nil, or_false] at hmem
    rcases hmem with h | h | h | h | h | h <;> subst h <;>
      simp only [generateFernGeneratorsConfig] <;>
      (repeat apply prefix_of_append) <;> decide
  · intro hmem
    have hts : language ≠ "typescript" := by
      intro h; exact hmem (by simp [supportedLanguages, h])
    have hpy : language ≠ "python" := by
      intro h; exact hmem (by simp [supportedLanguages, h])
    have hja : language ≠ "java" := by
      intro h; exact hmem (by simp [supportedLanguages, h])
    have hgo : language ≠ "go" := by
      intro h; exact hmem (by simp [supportedLanguages, h])
    have hrb : language ≠ "ruby" := by
      intro h; exact hmem (by simp [supportedLanguages, h])
    have hcs : language ≠ "csharp" := by
      intro h; exact hmem (by simp [supportedLanguages, h])
    constructor
    · unfold generateFernGeneratorsConfig
      split
      · exact absurd rfl hts
      · exact absurd rfl hpy
      · exact absurd rfl hja
      · exact absurd rfl hgo
      · exact absurd rfl hrb
      · exact absurd rfl hcs
      · rfl
    · simp [specSelectedVariant, supportedLanguages, hts, hpy, hja, hgo, hrb, hcs]

/-- C4 witness: `python` selects the python variant and the unsupported
`cobol` falls back to the typescript variant's artifact. -/
theorem c4_variant_selection_witness :
    (("\n" ++ "python" ++ ":").data <+:
      (generateFernGeneratorsConfig "python" "acme-client" {}).data) ∧
    generateFernGeneratorsConfig "cobol" "acme-client" {} =
      generateFernGeneratorsConfig "typescript" "acme-client" {} :=
  ⟨(c4_variant_selection "python" "acme-client" {}).1 (by decide),
   ((c4_variant_selection "cobol" "acme-client" {}).2 (by decide)).1⟩

/-- C5 counterexample: with the caller explicitly passing
`includeExamples: false`, the generated typescript artifact still reads
`includeExamples: true` — the claim that an explicit false yields false in
the artifact is refuted (`config.includeExamples || true` is truthy-eager). -/
theorem c5_explicit_false_still_true :
    generateFernGeneratorsConfig "typescript" "api-client"
        { includeExamples := some false } =
      "\ntypescript:\n  mode: client\n  output:\n    location: local\n    path: ./generated/typescript\n  name: api-client\n  includeExamples: true\n  includeTests: false" := by
  decide

/-- C5 (amended): the include-tests toggle does equal the caller's boolean
with default false (`x || false` is the identity on booleans), but the
include-examples toggle is rendered `true` for every caller value —
`x || true` never evaluates to false — as the artifact for the typescript
variant shows. -/
theorem c5_amended_toggle_rendering (packageName : String) (cfg : RequestConfig) :
    jsOrBool cfg.includeExamples true = true ∧
    jsOrBool cfg.includeTests false = decide (cfg.includeTests = some true) ∧
    generateFernGeneratorsConfig "typescript" packageName cfg =
      "\ntypescript:\n  mode: client\n  output:\n    location: local\n    path: ./generated/typescript\n  name: "
        ++ packageName ++ "\n  includeExamples: " ++ "true" ++ "\n  includeTests: "
        ++ (if cfg.includeTests = some true then "true" else "false") := by
  obtain ⟨ex, te, fv, td⟩ := cfg
  rcases ex with _ | b <;> rcases te with _ | c
  · exact ⟨rfl, by simp [jsOrBool], rfl⟩
  · cases c <;> exact ⟨rfl, by simp [jsOrBool], rfl⟩
  · cases b <;> exact ⟨rfl, by simp [jsOrBool], rfl⟩
  · cases b <;> cases c <;> exact ⟨rfl, by simp [jsOrBool], rfl⟩

/-- C7: the per-job CLI install command is built from the *caller's* parsed
config (the `config` local of `setupFernProject` shadows the service
config): with no caller `fernCliVersion` it installs `fern-api@undefined`,
with a caller-supplied version it installs that version, and in neither
default case does it install the service-pinned 0.61.18. -/
theorem c7_install_version_from_request_config :
    installCommand {} = "npm install -g fern-api@undefined" ∧
    installCommand { fernCliVersion := some "9.9.9" } = "npm install -g fern-api@9.9.9" ∧
    config.fernCliVersion = "0.61.18" ∧
    installCommand {} ≠ "npm install -g fern-api@" ++ config.fernCliVersion := by
  refine ⟨rfl, rfl, rfl, by decide⟩

/-- A non-empty string has positive length. -/
theorem ne_empty_length_pos (s : String) (h : s ≠ "") : 0 < s.length := by
  cases s with
  | mk data =>
    cases data with
    | nil => exact absurd rfl h
    | cons c cs => simp [String.length]

/-- Every diagnostic produced by the /check error extraction is non-empty
(it survived the `line.trim().length > 0` filter). -/
theorem parseValidationErrors_mem_ne_empty (stderr stdout d : String)
    (hd : d ∈ parseValidationErrors stderr stdout) : d ≠ "" := by
  unfold parseValidationErrors at hd
  by_cases h : (if stderr = "" then stdout else stderr) = ""
  · simp [h] at hd
  · simp only [h, if_neg, ite_false, List.mem_map, List.mem_filter,
      decide_eq_true_eq] at hd
    obtain ⟨line, ⟨hmem, hpos⟩, hEq⟩ := hd
    intro hde
    rw [hde] at hEq
    rw [hEq] at hpos
    exact absurd hpos (by decide)

/-- The /check error extraction yields at least one diagnostic whenever the
chosen error output has a line that does not trim to nothing. -/
theorem parseValidationErrors_ne_nil (stderr stdout : String)
    (h : ∃ line ∈ jsSplitLines (if stderr = "" then stdout else stderr),
        jsTrim line ≠ "") :
    parseValidationErrors stderr stdout ≠ [] := by
  obtain ⟨line, hmem, hne⟩ := h
  unfold parseValidationErrors
  by_cases he : (if stderr = "" then stdout else stderr) = ""
  · rw [he] at hmem
    have hmem' : line ∈ ([""] : List String) := hmem
    have hline : line = "" := by simpa using hmem'
    rw [hline] at hne
    exact absurd rfl hne
  · simp only [he, if_neg, ite_false]
    have hpos : 0 < (jsTrim line).length := ne_empty_length_pos _ hne
    have hf : line ∈ (jsSplitLines
        (if stderr = "" then stdout else stderr)).filter
          (fun line => 0 < (jsTrim line).length) :=
      List.mem_filter.mpr ⟨hmem, decide_eq_true hpos⟩
    exact List.ne_nil_of_mem (List.mem_map_of_mem _ hf)

/-- C2 counterexample: a /generate job whose tool exits zero but whose
`generated` directory exists and is empty succeeds and streams an archive
in src/server.js — `createZipArchive` never checks for emptiness — refuting
the claim that such a job never succeeds with an archive. -/
theorem c2_empty_output_archives_success :
    generateHandler
      { hasSpecFile := true, language := some "typescript",
        packageName := some "acme-client",
        requestConfig := some { tempDir := some "./tmp" } }
      { npmAvailable := true, installSucceeds := true,
        generateOutcome := { exitCode := 0, stdout := "", stderr := "" },
        generatedDir := .empty } =
      { status := 200, archiveSent := true, workspaceCreated := true,
        workspaceReleased := true } := by
  rfl

/-- C2 (amended): after a zero-exit tool invocation, an *absent* generated
directory does make the src/server.js job fail without an archive (the
undefined `logger.warn` raises a TypeError that rejects the packaging
promise), but an existing-and-empty directory succeeds with an archive;
only part_001's `createZipArchive` rejects both the absent and the empty
directory as the claim describes. -/
theorem c2_amended_packaging (req : JobRequest) (env : GenEnv)
    (hl : req.language.isNone = false) (hp : req.packageName.isNone = false)
    (ht : ((req.requestConfig.getD {}).tempDir).isNone = false)
    (hs : req.hasSpecFile = true)
    (hnpm : env.npmAvailable = true) (hinst : env.installSucceeds = true)
    (hexit : env.generateOutcome.exitCode = 0) :
    (env.generatedDir = .missing →
      (generateHandler req env).status = 500 ∧
      (generateHandler req env).archiveSent = false) ∧
    (env.generatedDir = .empty → (generateHandler req env).archiveSent = true) ∧
    Part001.createZipArchive .missing = .error "Generated directory not found" ∧
    Part001.createZipArchive .empty = .error "Generated directory is empty" := by
  refine ⟨?_, ?_, rfl, rfl⟩ <;> intro hdir <;>
    simp [generateHandler, hl, hp, ht, hs, hnpm, hinst, hexit, hdir, createZipArchive]

/-- C2 witness: the amended statement applied to a concrete job whose tool
exits zero with the generated directory absent. -/
theorem c2_amended_packaging_witness :
    (generateHandler
      { hasSpecFile := true, language := some "go",
        packageName := some "acme-client",
        requestConfig := some { tempDir := some "./tmp" } }
      { npmAvailable := true, installSucceeds := true,
        generateOutcome := { exitCode := 0, stdout := "done", stderr := "" },
        generatedDir := .missing }).status = 500 ∧
    (generateHandler
      { hasSpecFile := true, language := some "go",
        packageName := some "acme-client",
        requestConfig := some { tempDir := some "./tmp" } }
      { npmAvailable := true, installSucceeds := true,
        generateOutcome := { exitCode := 0, stdout := "done", stderr := "" },
        generatedDir := .missing }).archiveSent = false :=
  (c2_amended_packaging
    { hasSpecFile := true, language := some "go",
      packageName := some "acme-client",
      requestConfig := some { tempDir := some "./tmp" } }
    { npmAvailable := true, installSucceeds := true,
      generateOutcome := { exitCode := 0, stdout := "done", stderr := "" },
      generatedDir := .missing }
    rfl rfl rfl rfl rfl rfl rfl).1 rfl

/-- C3 counterexample: a /check job whose `fern check` exits non-zero is
answered with HTTP 400 — a client-fault status, not a successful response —
and its payload carries no `valid` field at all (the ValidationError branch
sends `{error, details}`), refuting the claim of a successful
`valid:false` response. -/
theorem c3_check_failure_is_client_fault :
    checkHandler
      { hasSpecFile := true, language := some "typescript",
        packageName := some "api-client", requestConfig := none }
      { npmAvailable := true, installSucceeds := true,
        checkOutcome := { exitCode := 1, stdout := "", stderr := "error: spec invalid" } }
      0 =
      { status := 400, valid := none, message := none,
        errorMessage := some "OpenAPI specification has validation errors",
        errors := some ["error: spec invalid"], fernDir := none,
        workspaceCreated := true, workspaceReleased := false } := by
  rfl

/-- C3 (amended): a /check job whose check invocation exits non-zero is
mapped to a 400 client-fault response carrying the fixed error message and
the parsed diagnostics (in `details.errors`); no `valid` flag is included
and the response is not a success status. -/
theorem c3_amended_check_failure_response (req : JobRequest) (env : CheckEnv) (now : Nat)
    (hl : req.language.isNone = false) (hp : req.packageName.isNone = false)
    (hs : req.hasSpecFile = true) (hnpm : env.npmAvailable = true)
    (hinst : env.installSucceeds = true) (hexit : env.checkOutcome.exitCode ≠ 0) :
    (checkHandler req env now).status = 400 ∧
    (checkHandler req env now).valid = none ∧
    (checkHandler req env now).errorMessage =
      some "OpenAPI specification has validation errors" ∧
    (checkHandler req env now).errors =
      some (parseValidationErrors env.checkOutcome.stderr env.checkOutcome.stdout) := by
  simp [checkHandler, hl, hp, hs, hnpm, hinst, hexit]

/-- C3 witness: the amended statement applied to a concrete failing check. -/
theorem c3_amended_check_failure_response_witness :
    (checkHandler
      { hasSpecFile := true, language := some "python",
        packageName := some "api-client", requestConfig := none }
      { npmAvailable := true, installSucceeds := true,
        checkOutcome := { exitCode := 2, stdout := "", stderr := "bad ref" } }
      7).status = 400 ∧
    (checkHandler
      { hasSpecFile := true, language := some "python",
        packageName := some "api-client", requestConfig := none }
      { npmAvailable := true, installSucceeds := true,
        checkOutcome := { exitCode := 2, stdout := "", stderr := "bad ref" } }
      7).valid = none ∧
    (checkHandler
      { hasSpecFile := true, language := some "python",
        packageName := some "api-client", requestConfig := none }
      { npmAvailable := true, installSucceeds := true,
        checkOutcome := { exitCode := 2, stdout := "", stderr := "bad ref" } }
      7).errorMessage = some "OpenAPI specification has validation errors" ∧
    (checkHandler
      { hasSpecFile := true, language := some "python",
        packageName := some "api-client", requestConfig := none }
      { npmAvailable := true, installSucceeds := true,
        checkOutcome := { exitCode := 2, stdout := "", stderr := "bad ref" } }
      7).errors = some (parseValidationErrors "bad ref" "") :=
  c3_amended_check_failure_response _ _ 7 rfl rfl rfl rfl rfl (by decide)

/-- C8 counterexample: a /check request with `language` and `packageName`
but no uploaded spec file is answered 500 'Internal server error' (the
plain `Error` thrown by `setupFernProject` is not the `ValidationError`
class, so the catch maps it to a server fault, not a 400), and the
workspace directory had already been created by `fs.ensureDirSync` before
the missing file was detected — refuting both halves of the claim. -/
theorem c8_missing_spec_500_after_workspace_created :
    checkHandler
      { hasSpecFile := false, language := some "typescript",
        packageName := some "api-client", requestConfig := none }
      { npmAvailable := true, installSucceeds := true,
        checkOutcome := { exitCode := 0, stdout := "", stderr := "" } }
      1700000000000 =
      { status := 500, valid := none, message := none,
        errorMessage := some "Internal server error",
        errors := none, fernDir := none,
        workspaceCreated := true, workspaceReleased := false } := by
  rfl

/-- C8 (amended): a /check job with no input specification file fails only
inside `setupFernProject`, *after* the workspace directory has been
created, and the plain error is surfaced as a 500 internal server error
(not a client-fault 400); the /check handler never removes the
workspace. -/
theorem c8_amended_missing_spec (req : JobRequest) (env : CheckEnv) (now : Nat)
    (hl : req.language.isNone = false) (hp : req.packageName.isNone = false)
    (hs : req.hasSpecFile = false) :
    (checkHandler req env now).status = 500 ∧
    (checkHandler req env now).errorMessage = some "Internal server error" ∧
    (checkHandler req env now).workspaceCreated = true ∧
    (checkHandler req env now).workspaceReleased = false := by
  simp [checkHandler, hl, hp, hs]

/-- C8 witness: the amended statement applied to a concrete spec-less
request. -/
theorem c8_amended_missing_spec_witness :
    (checkHandler
      { hasSpecFile := false, language := some "ruby",
        packageName := some "client", requestConfig := none }
      { npmAvailable := true, installSucceeds := true,
        checkOutcome := { exitCode := 0, stdout := "", stderr := "" } }
      42).status = 500 ∧
    (checkHandler
      { hasSpecFile := false, language := some "ruby",
        packageName := some "client", requestConfig := none }
      { npmAvailable := true, installSucceeds := true,
        checkOutcome := { exitCode := 0, stdout := "", stderr := "" } }
      42).errorMessage = some "Internal server error" ∧
    (checkHandler
      { hasSpecFile := false, language := some "ruby",
        packageName := some "client", requestConfig := none }
      { npmAvailable := true, installSucceeds := true,
        checkOutcome := { exitCode := 0, stdout := "", stderr := "" } }
      42).workspaceCreated = true ∧
    (checkHandler
      { hasSpecFile := false, language := some "ruby",
        packageName := some "client", requestConfig := none }
      { npmAvailable := true, installSucceeds := true,
        checkOutcome := { exitCode := 0, stdout := "", stderr := "" } }
      42).workspaceReleased = false :=
  c8_amended_missing_spec _ _ 42 rfl rfl rfl

/-- C9 counterexample: with captured stderr consisting of whitespace only —
non-empty error output — every line trims away and the diagnostics list in
the 400 response is empty, refuting the claimed non-emptiness (the stdout
content is ignored because truthy stderr is preferred). -/
theorem c9_whitespace_output_empty_diagnostics :
    (checkHandler
      { hasSpecFile := true, language := some "typescript",
        packageName := some "api-client", requestConfig := none }
      { npmAvailable := true, installSucceeds := true,
        checkOutcome := { exitCode := 1, stdout := "real detail", stderr := "   " } }
      0).errors = some [] ∧ ("   " : String) ≠ "" := by
  exact ⟨rfl, by decide⟩

/-- C9 (amended): on a failing check the response's diagnostics are exactly
`parseValidationErrors stderr stdout` — the ordered trimmed lines of stderr
(of stdout only when stderr is empty) with blank lines dropped — every
diagnostic is a non-empty string, and the list itself is non-empty
*provided* the chosen error output has at least one line that does not trim
to nothing (a whitespace-only error output yields an empty list). -/
theorem c9_amended_diagnostics (req : JobRequest) (env : CheckEnv) (now : Nat)
    (hl : req.language.isNone = false) (hp : req.packageName.isNone = false)
    (hs : req.hasSpecFile = true) (hnpm : env.npmAvailable = true)
    (hinst : env.installSucceeds = true) (hexit : env.checkOutcome.exitCode ≠ 0) :
    (checkHandler req env now).errors =
      some (parseValidationErrors env.checkOutcome.stderr env.checkOutcome.stdout) ∧
    (∀ d ∈ parseValidationErrors env.checkOutcome.stderr env.checkOutcome.stdout,
      d ≠ "") ∧
    ((∃ line ∈ jsSplitLines
        (if env.checkOutcome.stderr = "" then env.checkOutcome.stdout
         else env.checkOutcome.stderr),
        jsTrim line ≠ "") →
      parseValidationErrors env.checkOutcome.stderr env.checkOutcome.stdout ≠ []) := by
  refine ⟨by simp [checkHandler, hl, hp, hs, hnpm, hinst, hexit], ?_, ?_⟩
  · intro d hd
    exact parseValidationErrors_mem_ne_empty _ _ _ hd
  · intro hex
    exact parseValidationErrors_ne_nil _ _ hex

/-- C9 witness: the amended statement applied to a failing check whose
stderr has two real lines separated by a blank one. -/
theorem c9_amended_diagnostics_witness :
    parseValidationErrors "err one\n\n  err two  " "" ≠ [] :=
  (c9_amended_diagnostics
    { hasSpecFile := true, language := some "typescript",
      packageName := some "api-client", requestConfig := none }
    { npmAvailable := true, installSucceeds := true,
      checkOutcome := { exitCode := 1, stdout := "", stderr := "err one\n\n  err two  " } }
    0 rfl rfl rfl rfl rfl (by decide)).2.2 (by decide)

/-- C10: every successful /check response includes the `fernDir` field with
the server-side path of the job's `fern` workspace subdirectory
(`path.join(workDir, 'fern')`), alongside `valid:true` and the fixed
message — the internal temp location is exposed to the caller. -/
theorem c10_success_response_exposes_workdir (req : JobRequest) (env : CheckEnv) (now : Nat)
    (hl : req.language.isNone = false) (hp : req.packageName.isNone = false)
    (hs : req.hasSpecFile = true) (hnpm : env.npmAvailable = true)
    (hinst : env.installSucceeds = true) (hexit : env.checkOutcome.exitCode = 0) :
    (checkHandler req env now).status = 200 ∧
    (checkHandler req env now).valid = some true ∧
    (checkHandler req env now).message = some "OpenAPI specification is valid" ∧
    (checkHandler req env now).fernDir = some (pathJoin (checkWorkDir now) "fern") := by
  simp [checkHandler, hl, hp, hs, hnpm, hinst, hexit]

/-- C10 witness: the concrete successful check at millisecond
1700000000000 exposes `./tmp/fern-check-1700000000000/fern`. -/
theorem c10_success_response_exposes_workdir_witness :
    (checkHandler
      { hasSpecFile := true, language := some "typescript",
        packageName := some "api-client", requestConfig := none }
      { npmAvailable := true, installSucceeds := true,
        checkOutcome := { exitCode := 0, stdout := "", stderr := "" } }
      1700000000000).fernDir =
      some (pathJoin (checkWorkDir 1700000000000) "fern") :=
  (c10_success_response_exposes_workdir
    { hasSpecFile := true, language := some "typescript",
      packageName := some "api-client", requestConfig := none }
    { npmAvailable := true, installSucceeds := true,
      checkOutcome := { exitCode := 0, stdout := "", stderr := "" } }
    1700000000000 rfl rfl rfl rfl rfl rfl).2.2.2

end FernExpress
